import Mathlib

/-!
Verification of the surepy core module (`src/surepy/__init__.py`) against its
natural-language specification.  The Python code is shallowly embedded: JSON
values become the inductive `Json`, Python dicts become association lists that
keep insertion order (as Python dicts do), raising code returns
`Except PyError`, and the `async` structure is flattened (each awaited HTTP
call is answered by an environment function `Sac.callResp`).
-/

/-- JSON values as handled by the Python code: `None`, booleans, integers,
strings, lists and (insertion-ordered) string-keyed dictionaries. -/
inductive Json where
  | null : Json
  | jbool (b : Bool) : Json
  | jint (n : Int) : Json
  | jstr (s : String) : Json
  | jarr (xs : List Json) : Json
  | jobj (kvs : List (String × Json)) : Json

mutual

def Json.decEq : (a b : Json) → Decidable (a = b)
  | .null, .null => isTrue rfl
  | .jbool a, .jbool b =>
      if h : a = b then isTrue (by rw [h]) else isFalse (by simp [h])
  | .jint a, .jint b =>
      if h : a = b then isTrue (by rw [h]) else isFalse (by simp [h])
  | .jstr a, .jstr b =>
      if h : a = b then isTrue (by rw [h]) else isFalse (by simp [h])
  | .jarr a, .jarr b =>
      match Json.decEqList a b with
      | isTrue h => isTrue (by rw [h])
      | isFalse h => isFalse (by simp [h])
  | .jobj a, .jobj b =>
      match Json.decEqKVs a b with
      | isTrue h => isTrue (by rw [h])
      | isFalse h => isFalse (by simp [h])
  | .null, .jbool _ => isFalse (by simp)
  | .null, .jint _ => isFalse (by simp)
  | .null, .jstr _ => isFalse (by simp)
  | .null, .jarr _ => isFalse (by simp)
  | .null, .jobj _ => isFalse (by simp)
  | .jbool _, .null => isFalse (by simp)
  | .jbool _, .jint _ => isFalse (by simp)
  | .jbool _, .jstr _ => isFalse (by simp)
  | .jbool _, .jarr _ => isFalse (by simp)
  | .jbool _, .jobj _ => isFalse (by simp)
  | .jint _, .null => isFalse (by simp)
  | .jint _, .jbool _ => isFalse (by simp)
  | .jint _, .jstr _ => isFalse (by simp)
  | .jint _, .jarr _ => isFalse (by simp)
  | .jint _, .jobj _ => isFalse (by simp)
  | .jstr _, .null => isFalse (by simp)
  | .jstr _, .jbool _ => isFalse (by simp)
  | .jstr _, .jint _ => isFalse (by simp)
  | .jstr _, .jarr _ => isFalse (by simp)
  | .jstr _, .jobj _ => isFalse (by simp)
  | .jarr _, .null => isFalse (by simp)
  | .jarr _, .jbool _ => isFalse (by simp)
  | .jarr _, .jint _ => isFalse (by simp)
  | .jarr _, .jstr _ => isFalse (by simp)
  | .jarr _, .jobj _ => isFalse (by simp)
  | .jobj _, .null => isFalse (by simp)
  | .jobj _, .jbool _ => isFalse (by simp)
  | .jobj _, .jint _ => isFalse (by simp)
  | .jobj _, .jstr _ => isFalse (by simp)
  | .jobj _, .jarr _ => isFalse (by simp)

def Json.decEqList : (a b : List Json) → Decidable (a = b)
  | [], [] => isTrue rfl
  | [], _ :: _ => isFalse (by simp)
  | _ :: _, [] => isFalse (by simp)
  | x :: xs, y :: ys =>
      match Json.decEq x y, Json.decEqList xs ys with
      | isTrue h1, isTrue h2 => isTrue (by rw [h1, h2])
      | isFalse h1, _ => isFalse (by simp [h1])
      | _, isFalse h2 => isFalse (by simp [h2])

def Json.decEqKVs : (a b : List (String × Json)) → Decidable (a = b)
  | [], [] => isTrue rfl
  | [], _ :: _ => isFalse (by simp)
  | _ :: _, [] => isFalse (by simp)
  | (k1, v1) :: xs, (k2, v2) :: ys =>
      if hk : k1 = k2 then
        match Json.decEq v1 v2, Json.decEqKVs xs ys with
        | isTrue h1, isTrue h2 => isTrue (by rw [hk, h1, h2])
        | isFalse h1, _ => isFalse (by simp [h1])
        | _, isFalse h2 => isFalse (by simp [h2])
      else isFalse (by simp [hk])

end

instance : DecidableEq Json := Json.decEq

/-- Association-list lookup: first binding wins, like a Python dict (whose keys
are unique, so the first binding is the only one). -/
def alLookup {κ α : Type} [DecidableEq κ] : List (κ × α) → κ → Option α
  | [], _ => none
  | (k', v) :: rest, k => if k' = k then some v else alLookup rest k

/-- Python dict assignment `d[k] = v`: overwrite in place if the key is
present (keeping its position), otherwise append at the end. -/
def alSet {κ α : Type} [DecidableEq κ] : List (κ × α) → κ → α → List (κ × α)
  | [], k, v => [(k, v)]
  | (k', v') :: rest, k, v =>
      if k' = k then (k, v) :: rest else (k', v') :: alSet rest k v

/-- Python `k in d` for the association lists of the embedding. -/
def alContains {κ α : Type} [DecidableEq κ] (l : List (κ × α)) (k : κ) : Bool :=
  (alLookup l k).isSome

/-- Exceptions that the embedded code can raise. -/
inductive PyError where
  | keyError (k : Json)
  | typeError
  | valueError
  | attributeError
  | unboundLocal
deriving DecidableEq

/-- Python truthiness of a JSON value (`if not raw_data`, `and pair[...]`). -/
def Json.truthy : Json → Bool
  | .null => false
  | .jbool b => b
  | .jint n => n != 0
  | .jstr s => !s.isEmpty
  | .jarr xs => !xs.isEmpty
  | .jobj kvs => !kvs.isEmpty

/-- Python `d.get(k, default)`; raises `AttributeError` when `d` is not a
dict. -/
def Json.dictGet : Json → String → Json → Except PyError Json
  | .jobj kvs, k, dflt => .ok ((alLookup kvs k).getD dflt)
  | _, _, _ => .error .attributeError

/-- Python subscript `d[k]` with a string key: `KeyError` when the key is
missing, `TypeError` when `d` is not a dict. -/
def Json.getItem : Json → String → Except PyError Json
  | .jobj kvs, k =>
      match alLookup kvs k with
      | some v => .ok v
      | none => .error (.keyError (.jstr k))
  | _, _ => .error .typeError

/-- Python `k in d` on a JSON value (dict membership checks keys). -/
def Json.hasKey : Json → String → Bool
  | .jobj kvs, k => alContains kvs k
  | _, _ => false

/-- Python assignment `d[k] = v` on a JSON value; `TypeError` when `d` is not
a dict. -/
def Json.setItem : Json → String → Json → Except PyError Json
  | .jobj kvs, k, v => .ok (.jobj (alSet kvs k v))
  | _, _, _ => .error .typeError

/-- Python `int(x)` on a JSON value: integers pass through, booleans coerce,
numeric strings parse (`ValueError` otherwise), anything else is a
`TypeError`. -/
def jsonToInt : Json → Except PyError Int
  | .jint n => .ok n
  | .jbool b => .ok (if b then 1 else 0)
  | .jstr s =>
      match s.toInt? with
      | some n => .ok n
      | none => .error .valueError
  | .null => .error .typeError
  | .jarr _ => .error .typeError
  | .jobj _ => .error .typeError

/-- Modelled from the spec: `surepy.enums.EntityType` is imported by
`src/surepy/__init__.py` but `surepy/enums.py` is not under `src/`.  Spec §3
and §6 fix a closed enumeration {CAT_FLAP, PET_FLAP, FEEDER, FEEDER_LITE,
FELAQUA, HUB, PET} plus an explicit `unknown` fallback for unmapped numeric
codes. -/
inductive EntityType where
  | CAT_FLAP : EntityType
  | PET_FLAP : EntityType
  | FEEDER : EntityType
  | FEEDER_LITE : EntityType
  | FELAQUA : EntityType
  | HUB : EntityType
  | PET : EntityType
  | unknown : EntityType
deriving DecidableEq

/-- Modelled from the spec: the entity classes (`surepy/entities/...`) are not
under `src/`.  Spec §3: every entity wraps one raw JSON record (`_data`) as
its source of truth and carries an immutable type tag assigned at
construction.  The class of the constructed object (Flap / Feeder / Felaqua /
Hub / Pet) is determined by the tag, so the tag field represents the variant:
Flap ↔ CAT_FLAP or PET_FLAP, Feeder ↔ FEEDER or FEEDER_LITE, Felaqua ↔
FELAQUA, Hub ↔ HUB, Pet ↔ PET. -/
structure SurepyEntity where
  etype : EntityType
  data : Json
deriving DecidableEq

/-- Modelled from the spec: spec §3 and §6 say every entity has a
`household_id` read from its wrapped record. -/
def SurepyEntity.householdId (e : SurepyEntity) : Except PyError Json :=
  e.data.getItem "household_id"

/-- The process-wide entity map `self._entities`.  Keys are the raw JSON `id`
values (`entity_id = entity["id"]` stores the uncoerced value as dict key). -/
abbrev EntityMap := List (Json × SurepyEntity)

/-- Modelled from the spec: `surepy/const.py` is not under `src/`; only the
shape `.../report/household/{household_id}` of the resource paths matters
(spec §6). -/
def BASE_RESOURCE : String := "https://app.api.surehub.io/api"

/-- Modelled from the spec: the bulk-sync resource path (spec §6, "bulk sync
resource"), a fixed string distinct from the report resources. -/
def MESTART_RESOURCE : String := BASE_RESOURCE ++ "/me/start"

/-- Resource string built by `get_actions`:
`f"{BASE_RESOURCE}/report/household/{household_id}"`. -/
def reportResource (household_id : Int) : String :=
  BASE_RESOURCE ++ "/report/household/" ++ toString household_id

/-- The consumed surface of `SureAPIClient` (spec §4.3): a per-resource raw
response cache (`sac.resources`) and the answer each awaited
`sac.call(method="GET", resource=r)` would produce (`none` models a
null/absent result). -/
structure Sac where
  resources : List (String × Json)
  callResp : String → Option Json

/-- Value stored in `latest_actions[pet_id]` during the loop of
`get_actions`: either a reference to a device's `_data` dict (Python stores
the dict object, so later in-place mutation is visible through it) or a plain
JSON value (the popped datapoint). -/
inductive ARef where
  | dev (k : Json) : ARef
  | val (j : Json) : ARef
deriving DecidableEq

/-- In-place mutation of a device's wrapped record
(`self._entities[device_id]._data[key] = v` mutates the dict object held at
that key; the map's keys are untouched). -/
def setEntityData (st : EntityMap) (k : Json) (newData : Json) : EntityMap :=
  st.map (fun kv => if kv.fst = k then (kv.fst, ⟨kv.snd.etype, newData⟩) else kv)

/-- Evaluation of `pair[sectionKey]["datapoints"]` and its truthiness test:
returns `some` last datapoint when the list is non-empty (what `.pop()`
returns), `none` when the value is falsy (the `and` condition fails). -/
def branchDatapoints (pair : Json) (sectionKey : String) :
    Except PyError (Option Json) := do
  let sec ← pair.getItem sectionKey
  let dps ← sec.getItem "datapoints"
  if dps.truthy then
    match dps with
    | .jarr xs => .ok xs.getLast?
    | _ => .error .attributeError
  else .ok none

/-- Body of the `for pair in data` loop of `Surepy.get_actions`
(src lines 239-264).  `pet_id = int(pair["pet_id"])`,
`device_id = int(pair["device_id"])`, `device = self._entities[device_id]`
(KeyError when absent), then `latest_actions[pet_id]` is set to the device's
`_data` reference, and the movement / feeding / drinking branches pop the last
datapoint and execute the chained assignment
`latest_actions[pet_id] = self._entities[device_id]._data[key] = latest_datapoint`,
which stores the datapoint itself in `latest_actions` and writes it into the
device record under `move` / `lunch` / `drink`. -/
def processPair (entities : EntityMap) (acc : List (Int × ARef)) (pair : Json) :
    Except PyError (EntityMap × List (Int × ARef)) := do
  let pet_id ← jsonToInt (← pair.getItem "pet_id")
  let device_id ← jsonToInt (← pair.getItem "device_id")
  match alLookup entities (Json.jint device_id) with
  | none => .error (.keyError (.jint device_id))
  | some device => do
    let acc0 := alSet acc pet_id (ARef.dev (.jint device_id))
    if device.etype = .CAT_FLAP ∨ device.etype = .PET_FLAP then
      match ← branchDatapoints pair "movement" with
      | some dp => do
          let newData ← device.data.setItem "move" dp
          .ok (setEntityData entities (.jint device_id) newData,
               alSet acc0 pet_id (ARef.val dp))
      | none => .ok (entities, acc0)
    else if device.etype = .FEEDER ∨ device.etype = .FEEDER_LITE then
      match ← branchDatapoints pair "feeding" with
      | some dp => do
          let newData ← device.data.setItem "lunch" dp
          .ok (setEntityData entities (.jint device_id) newData,
               alSet acc0 pet_id (ARef.val dp))
      | none => .ok (entities, acc0)
    else if device.etype = .FELAQUA then
      match ← branchDatapoints pair "drinking" with
      | some dp => do
          let newData ← device.data.setItem "drink" dp
          .ok (setEntityData entities (.jint device_id) newData,
               alSet acc0 pet_id (ARef.val dp))
      | none => .ok (entities, acc0)
    else .ok (entities, acc0)

/-- The whole `for pair in data` loop of `Surepy.get_actions`. -/
def processPairs (entities : EntityMap) (acc : List (Int × ARef)) :
    List Json → Except PyError (EntityMap × List (Int × ARef))
  | [] => .ok (entities, acc)
  | p :: rest => do
      let (e2, a2) ← processPair entities acc p
      processPairs e2 a2 rest

/-- Resolution of a stored reference at return time: an entry holding a
device's `_data` reference denotes that dict's final contents (Python
aliasing), an entry holding a popped datapoint denotes the datapoint. -/
def resolveARef (final : EntityMap) : ARef → Json
  | .val j => j
  | .dev k => ((alLookup final k).map (fun e => e.data)).getD .null

/-- The returned `latest_actions` dictionary, with dict-object references
resolved against the final entity map. -/
def resolveActions (final : EntityMap) (acc : List (Int × ARef)) :
    List (Int × Json) :=
  acc.map (fun kv => (kv.fst, resolveARef final kv.snd))

/-- `Surepy.get_actions` (src lines 223-266).  Returns the final
`self._entities` together with the returned `latest_actions` mapping.
`pet_id` and `only_latest` are parameters of the source function and are
embedded as such; the body never reads them (`pet_id` is immediately shadowed
inside the loop). -/
def getActions (sac : Sac) (entities : EntityMap) (household_id : Int)
    (pet_id : Option Int) (only_latest : Bool) :
    Except PyError (EntityMap × List (Int × Json)) :=
  let pet_device_pairs : Json :=
    match sac.callResp (reportResource household_id) with
    | some j => if j.truthy then j else .jobj []
    | none => .jobj []
  if pet_device_pairs.hasKey "data" = false then
    .ok (entities, [])
  else
    match pet_device_pairs.getItem "data" with
    | .error e => .error e
    | .ok (.jarr pairs) =>
        match processPairs entities [] pairs with
        | .error e => .error e
        | .ok (e2, acc) => .ok (e2, resolveActions e2 acc)
    | .ok _ => .error .typeError

/-- `Surepy.latest_actions` (src lines 197-209): delegates to `get_actions`
with `only_latest=True`. -/
def latestActions (sac : Sac) (entities : EntityMap) (household_id : Int)
    (pet_id : Option Int) : Except PyError (EntityMap × List (Int × Json)) :=
  getActions sac entities household_id pet_id true

/-- `Surepy.all_actions` (src lines 211-221): delegates to `get_actions`
with `only_latest=False`. -/
def allActions (sac : Sac) (entities : EntityMap) (household_id : Int)
    (pet_id : Option Int) : Except PyError (EntityMap × List (Int × Json)) :=
  getActions sac entities household_id pet_id false

/-- The `raw_data` computation of `Surepy.get_entities` (src lines 344-356).
When the bulk-sync resource is uncached or a refresh is forced, the code runs
`if response := await self.sac.call(...)`: a null or falsy response leaves
`raw_data` unassigned, so the later `if not raw_data:` raises
`UnboundLocalError`.  Otherwise the cached response's `data` section is
used. -/
def fetchRawData (sac : Sac) (refresh : Bool) : Except PyError Json :=
  if alContains sac.resources MESTART_RESOURCE = false ∨ refresh = true then
    match sac.callResp MESTART_RESOURCE with
    | some response =>
        if response.truthy then response.dictGet "data" (.jobj [])
        else .error .unboundLocal
    | none => .error .unboundLocal
  else
    match alLookup sac.resources MESTART_RESOURCE with
    | some cached => cached.dictGet "data" (.jobj [])
    | none => .error (.keyError (.jstr MESTART_RESOURCE))

/-- Body of the `for entity in ...` loop of `Surepy.get_entities`
(src lines 358-382).  Derives the type tag from `product_id` (default `0`),
adds the matching variant to the local `surepy_entities` dict for the mapped
tags and only logs for an unmapped tag — but the two trailing statements
`household_ids.add(int(surepy_entities[entity_id].household_id))` and
`self._entities[entity_id] = surepy_entities[entity_id]` run for every
record, so an unmapped record whose id is absent from `surepy_entities`
raises `KeyError` there. -/
def processRecord (tagOf : Int → EntityType) (selfEnts localEnts : EntityMap)
    (hhIds : List Int) (entity : Json) :
    Except PyError (EntityMap × EntityMap × List Int) := do
  let code ← jsonToInt (← entity.dictGet "product_id" (.jint 0))
  let entity_type := tagOf code
  let entity_id ← entity.getItem "id"
  let localEnts2 :=
    match entity_type with
    | .CAT_FLAP | .PET_FLAP => alSet localEnts entity_id ⟨entity_type, entity⟩
    | .FEEDER | .FEEDER_LITE => alSet localEnts entity_id ⟨entity_type, entity⟩
    | .FELAQUA => alSet localEnts entity_id ⟨.FELAQUA, entity⟩
    | .HUB => alSet localEnts entity_id ⟨.HUB, entity⟩
    | .PET => alSet localEnts entity_id ⟨.PET, entity⟩
    | .unknown => localEnts
  match alLookup localEnts2 entity_id with
  | none => .error (.keyError entity_id)
  | some e => do
      let hh ← jsonToInt (← e.householdId)
      let hhIds2 := if hhIds.contains hh then hhIds else hhIds ++ [hh]
      .ok (alSet selfEnts entity_id e, localEnts2, hhIds2)

/-- The whole record-classification loop of `Surepy.get_entities`. -/
def processRecords (tagOf : Int → EntityType) (selfEnts localEnts : EntityMap)
    (hhIds : List Int) : List Json → Except PyError (EntityMap × EntityMap × List Int)
  | [] => .ok (selfEnts, localEnts, hhIds)
  | r :: rest => do
      let (s2, l2, h2) ← processRecord tagOf selfEnts localEnts hhIds r
      processRecords tagOf s2 l2 h2 rest

/-- The enrichment fan-out of `Surepy.get_entities` (src lines 384-386): one
`get_actions(household_id=h, only_latest=True)` call per discovered household
id; the returned mapping is discarded, only the entity mutations persist. -/
def enrichHouseholds (sac : Sac) (entities : EntityMap) :
    List Int → Except PyError EntityMap
  | [] => .ok entities
  | h :: rest => do
      let (e2, _) ← getActions sac entities h none true
      enrichHouseholds sac e2 rest

/-- `Surepy.get_entities` (src lines 338-388).  `tagOf` is the vendor's
numeric product-id coding (modelled from the spec, since `surepy/enums.py` is
not under `src/`: the spec fixes only the tag set and the unknown fallback).
`selfEnts` is `self._entities` on entry.  On success the result is the final
`self._entities` paired with the returned map (`return self._entities`
returns the same object); the soft-failure branch returns the fresh empty
local `surepy_entities` and leaves `self._entities` untouched. -/
def getEntities (tagOf : Int → EntityType) (sac : Sac) (selfEnts : EntityMap)
    (refresh : Bool) : Except PyError (EntityMap × EntityMap) :=
  match fetchRawData sac refresh with
  | .error e => .error e
  | .ok rawData =>
    if rawData.truthy = false then
      .ok (selfEnts, [])
    else
      match rawData.dictGet "devices" (.jarr []) with
      | .error e => .error e
      | .ok dvj =>
        match rawData.dictGet "pets" (.jarr []) with
        | .error e => .error e
        | .ok ptj =>
          match dvj, ptj with
          | .jarr ds, .jarr ps =>
              match processRecords tagOf selfEnts [] [] (ds ++ ps) with
              | .error e => .error e
              | .ok (s2, _, hhIds) =>
                  match enrichHouseholds sac s2 hhIds with
                  | .error e => .error e
                  | .ok final => .ok (final, final)
          | _, _ => .error .typeError

/-- `natural_time` (src lines 44-74), with Python's floor-division semantics
(`divmod`). -/
def natural_time (duration : Int) : String :=
  let duration_h := duration.fdiv 3600
  let rem_h := duration.fmod 3600
  let duration_min := rem_h.fdiv 60
  let duration_sec := rem_h.fmod 60
  if duration ≥ 60 * 60 * 24 then
    let duration_d := duration_h.fdiv 24
    let duration_h24 := duration_h.fmod 24
    s!"{duration_d}d {duration_h24}h {duration_min}m"
  else if duration ≥ 60 * 60 then
    if duration_min < 2 ∨ duration_min > 58 then s!"{duration_h}h"
    else s!"{duration_h}h {duration_min}m"
  else if duration > 60 then s!"{duration_min}min"
  else s!"{duration_sec}sec"

/-- Modelled from the spec: a sample numeric product-id coding for concrete
instantiations.  The vendor's actual numbers live in `surepy/enums.py`, which
is not under `src/`; the spec (§6) fixes only the tag set and the unknown
fallback, which is all the claims depend on. -/
def exampleCoding : Int → EntityType := fun code =>
  if code = 1 then .CAT_FLAP
  else if code = 2 then .PET_FLAP
  else if code = 3 then .FEEDER
  else if code = 4 then .FEEDER_LITE
  else if code = 5 then .FELAQUA
  else if code = 6 then .HUB
  else if code = 7 then .PET
  else .unknown

/-- A household-report pairing of the shape given in spec §6:
`{"pet_id": ..., "device_id": ..., "movement": {"datapoints": [...]},
"feeding": {...}, "drinking": {...}}`. -/
def mkPair (pid did : Int) (mdps fdps ddps : List Json) : Json :=
  .jobj [("pet_id", .jint pid), ("device_id", .jint did),
         ("movement", .jobj [("datapoints", .jarr mdps)]),
         ("feeding", .jobj [("datapoints", .jarr fdps)]),
         ("drinking", .jobj [("datapoints", .jarr ddps)])]

/-- A sync-payload record of the shape given in spec §6: `id`, `product_id`,
`household_id`. -/
def mkRecord (i code hh : Int) : Json :=
  .jobj [("id", .jint i), ("product_id", .jint code), ("household_id", .jint hh)]

/-- Wrapped record of the flap device used in the concrete scenarios. -/
def c1data : Json := mkRecord 10 1 5

/-- Entity map holding one CAT_FLAP flap with id 10 in household 5. -/
def c1st : EntityMap := [(.jint 10, ⟨.CAT_FLAP, c1data⟩)]

/-- Client whose household-5 report pairs pet 20 with device 10 and carries
the movement datapoints `[{"t":1},{"t":2}]` from spec §8 property 5. -/
def c1sac : Sac :=
  ⟨[], fun r => if r = reportResource 5
    then some (.jobj [("data", .jarr
      [mkPair 20 10 [.jobj [("t", .jint 1)], .jobj [("t", .jint 2)]] [] []])])
    else none⟩

/-- The flap's wrapped record after enrichment: the last datapoint written
under key `move`. -/
def c1dataAfter : Json :=
  .jobj [("id", .jint 10), ("product_id", .jint 1), ("household_id", .jint 5),
         ("move", .jobj [("t", .jint 2)])]

/-- Client whose household-5 report pairs pet 20 with device 10 but carries
empty datapoint lists in every section (the no-mutation case). -/
def c1sacB : Sac :=
  ⟨[], fun r => if r = reportResource 5
    then some (.jobj [("data", .jarr [mkPair 20 10 [] [] []])])
    else none⟩

/-- Client whose bulk-sync payload holds a single device record with the
unmapped product code 99. -/
def c2sac : Sac :=
  ⟨[], fun r => if r = MESTART_RESOURCE
    then some (.jobj [("data", .jobj [("devices", .jarr [mkRecord 1 99 5]),
                                      ("pets", .jarr [])])])
    else none⟩

/-- Prior process-wide entity map holding one hub with id 7. -/
def c3st : EntityMap := [(.jint 7, ⟨.HUB, mkRecord 7 6 5⟩)]

/-- Client with a cached bulk-sync response whose data section is empty. -/
def c3sac : Sac := ⟨[(MESTART_RESOURCE, .jobj [("data", .jobj [])])], fun _ => none⟩

/-- Client with nothing cached and every call returning null. -/
def c3sacB : Sac := ⟨[], fun _ => none⟩

/-- Client whose bulk-sync payload holds a single record with product code 5
(FELAQUA under `exampleCoding`) and whose report calls return null. -/
def c6sac : Sac :=
  ⟨[], fun r => if r = MESTART_RESOURCE
    then some (.jobj [("data", .jobj [("devices", .jarr [mkRecord 10 5 3]),
                                      ("pets", .jarr [])])])
    else none⟩

/-- Prior process-wide entity map holding one pet with id 9. -/
def c7st : EntityMap := [(.jint 9, ⟨.PET, mkRecord 9 7 4⟩)]

/-- Client whose bulk-sync fetch succeeds but carries an empty data
section. -/
def c7sac : Sac :=
  ⟨[], fun r => if r = MESTART_RESOURCE then some (.jobj [("data", .jobj [])])
    else none⟩

/-- Client whose household-2 report references device id 99, absent from the
entity map. -/
def c8sac : Sac :=
  ⟨[], fun r => if r = reportResource 2
    then some (.jobj [("data", .jarr
      [.jobj [("pet_id", .jint 1), ("device_id", .jint 99)]])])
    else none⟩

/-! Helper lemmas about the `Except` monad and the association lists. -/

@[simp] theorem exceptBind_ok {α β : Type} (x : α) (f : α → Except PyError β) :
    (Except.ok x : Except PyError α) >>= f = f x := rfl

@[simp] theorem exceptBind_error {α β : Type} (e : PyError) (f : α → Except PyError β) :
    (Except.error e : Except PyError α) >>= f = .error e := rfl

/-- C9 (corrected), counterexample: the spec's third duration example fails on
the code — `natural_time(3700)` computes 1 minute past the hour, and the
source collapses minutes below 2 to a bare hour string, yielding "1h", not
"1h 1m". -/
theorem natural_time_3700_counterexample : natural_time 3700 ≠ "1h 1m" := by
  decide

/-- C9 (corrected): the duration examples as the code computes them —
`natural_time 30 = "30sec"`, `natural_time 90 = "1min"`, and
`natural_time 3700 = "1h"` (minutes within 2 of a whole hour are
suppressed). -/
theorem natural_time_examples :
    natural_time 30 = "30sec" ∧ natural_time 90 = "1min" ∧
      natural_time 3700 = "1h" := by
  refine ⟨by decide, by decide, by decide⟩

/-- C4 (confirmed): `latest_actions` and `all_actions` delegate to
`get_actions` with `only_latest` true resp. false, and `get_actions` never
reads the flag, so for every client state, entity map, household id and pet
id the two produce identical results and identical entity-state mutations. -/
theorem onlyLatest_flag_no_effect :
    ∀ (sac : Sac) (entities : EntityMap) (household_id : Int) (pet_id : Option Int),
      latestActions sac entities household_id pet_id =
        allActions sac entities household_id pet_id ∧
      latestActions sac entities household_id pet_id =
        getActions sac entities household_id pet_id true ∧
      allActions sac entities household_id pet_id =
        getActions sac entities household_id pet_id false :=
  fun _ _ _ _ => ⟨rfl, rfl, rfl⟩

/-- C10 (confirmed): the `pet_id` argument of `get_actions` is dead — it is
shadowed inside the loop before any read, the fetched resource depends only
on `household_id`, and the result (returned mapping and entity mutations) is
identical for any two `pet_id` arguments, including `None`. -/
theorem getActions_ignores_pet_id :
    ∀ (sac : Sac) (entities : EntityMap) (household_id : Int) (b : Bool)
      (p1 p2 : Option Int),
      getActions sac entities household_id p1 b =
        getActions sac entities household_id p2 b :=
  fun _ _ _ _ _ _ => rfl

/-- C2 (code_bug): a sync payload whose single device record carries the
unmapped product code 99 makes `get_entities` raise `KeyError(1)` instead of
skipping the record: the statement
`household_ids.add(int(surepy_entities[entity_id].household_id))` runs outside
the type dispatch, and the skipped record's id was never added to
`surepy_entities`. -/
theorem getEntities_unknown_type_keyerror :
    getEntities exampleCoding c2sac [] true = .error (.keyError (.jint 1)) :=
  rfl

/-- C1 (corrected), counterexample: for the pairing (pet 20, flap 10) with
movement datapoints `[{"t":1},{"t":2}]`, the returned mapping stores the
popped datapoint `{"t":2}` under pet 20 — the chained assignment
`latest_actions[pet_id] = ..._data["move"] = latest_datapoint` rebinds the
entry to the datapoint — and that value differs from the device's full
wrapped record after mutation. -/
theorem getActions_returns_datapoint_not_record :
    getActions c1sac c1st 5 none true =
      .ok ([(.jint 10, ⟨.CAT_FLAP, c1dataAfter⟩)], [(20, .jobj [("t", .jint 2)])]) ∧
    (Json.jobj [("t", .jint 2)]) ≠ c1dataAfter :=
  ⟨rfl, by decide⟩

/-- C3 (corrected), counterexample: with a prior entity (hub 7) in the
process-wide map and a cached bulk-sync payload whose data section is empty,
`get_entities` returns the fresh empty local map — not the existing
process-wide map, which differs from it. -/
theorem getEntities_soft_failure_returns_empty_map :
    getEntities exampleCoding c3sac c3st false = .ok (c3st, []) ∧
    ([] : EntityMap) ≠ c3st :=
  ⟨rfl, by decide⟩

/-- C7 (corrected), counterexample: id 9 is present in the process-wide map
before the call, the bulk-sync fetch succeeds with an empty data section, and
the map `get_entities` returns is empty — the returned map does not retain
the prior id, so the returned map can shrink. -/
theorem getEntities_returned_map_shrinks :
    getEntities exampleCoding c7sac c7st true = .ok (c7st, []) ∧
    (alLookup c7st (.jint 9)).isSome = true ∧
    (alLookup ([] : EntityMap) (.jint 9)).isSome = false :=
  ⟨rfl, rfl, rfl⟩

/-- Behaviour of a dict write with respect to a later lookup: the written key
reads back the new value, every other key is untouched. -/
theorem alLookup_alSet {κ α : Type} [DecidableEq κ] (l : List (κ × α)) (k k' : κ) (v : α) :
    alLookup (alSet l k v) k' = if k = k' then some v else alLookup l k' := by
  induction l with
  | nil => simp [alSet, alLookup]
  | cons kv rest ih =>
      obtain ⟨k0, v0⟩ := kv
      by_cases h0 : k0 = k
      · subst h0
        simp only [alSet, if_pos rfl, alLookup]
        by_cases h1 : k0 = k' <;> simp [h1]
      · simp only [alSet, if_neg h0, alLookup, ih]
        by_cases h1 : k0 = k'
        · have h2 : k ≠ k' := fun h2 => h0 (h1.trans h2.symm)
          simp [h1, h2]
        · simp [h1]

/-- Lookup of the `pet_id` field of a well-formed report pairing. -/
theorem mkPair_getItem_pet (pid did : Int) (mdps fdps ddps : List Json) :
    (mkPair pid did mdps fdps ddps).getItem "pet_id" = .ok (.jint pid) := by
  simp [mkPair, Json.getItem, alLookup]

/-- Lookup of the `device_id` field of a well-formed report pairing. -/
theorem mkPair_getItem_dev (pid did : Int) (mdps fdps ddps : List Json) :
    (mkPair pid did mdps fdps ddps).getItem "device_id" = .ok (.jint did) := by
  simp [mkPair, Json.getItem, alLookup]

/-- The movement branch condition of the loop body evaluated on a well-formed
pairing: it yields the last datapoint exactly when the list is non-empty. -/
theorem branchDatapoints_mkPair_movement (pid did : Int) (mdps fdps ddps : List Json) :
    branchDatapoints (mkPair pid did mdps fdps ddps) "movement" =
      .ok mdps.getLast? := by
  cases mdps with
  | nil => simp [branchDatapoints, mkPair, Json.getItem, alLookup, Json.truthy]
  | cons x xs => simp [branchDatapoints, mkPair, Json.getItem, alLookup, Json.truthy]

/-- The feeding branch condition of the loop body evaluated on a well-formed
pairing. -/
theorem branchDatapoints_mkPair_feeding (pid did : Int) (mdps fdps ddps : List Json) :
    branchDatapoints (mkPair pid did mdps fdps ddps) "feeding" =
      .ok fdps.getLast? := by
  cases fdps with
  | nil => simp [branchDatapoints, mkPair, Json.getItem, alLookup, Json.truthy]
  | cons x xs => simp [branchDatapoints, mkPair, Json.getItem, alLookup, Json.truthy]

/-- The drinking branch condition of the loop body evaluated on a well-formed
pairing. -/
theorem branchDatapoints_mkPair_drinking (pid did : Int) (mdps fdps ddps : List Json) :
    branchDatapoints (mkPair pid did mdps fdps ddps) "drinking" =
      .ok ddps.getLast? := by
  cases ddps with
  | nil => simp [branchDatapoints, mkPair, Json.getItem, alLookup, Json.truthy]
  | cons x xs => simp [branchDatapoints, mkPair, Json.getItem, alLookup, Json.truthy]

/-- Loop body on a flap pairing with a non-empty movement list: the last
datapoint is popped, written into the device record under `move`, and stored
as the mapping value. -/
theorem processPair_move (st : EntityMap) (acc : List (Int × ARef)) (pid did : Int)
    (dev : SurepyEntity) (dkvs : List (String × Json)) (mdps fdps ddps : List Json) (dp : Json)
    (hdev : alLookup st (.jint did) = some dev)
    (hdata : dev.data = .jobj dkvs)
    (hty : dev.etype = .CAT_FLAP ∨ dev.etype = .PET_FLAP)
    (hlast : mdps.getLast? = some dp) :
    processPair st acc (mkPair pid did mdps fdps ddps) =
      .ok (setEntityData st (.jint did) (.jobj (alSet dkvs "move" dp)),
           alSet (alSet acc pid (ARef.dev (.jint did))) pid (ARef.val dp)) := by
  simp only [processPair, mkPair_getItem_pet, mkPair_getItem_dev, exceptBind_ok,
    jsonToInt, hdev, branchDatapoints_mkPair_movement, hlast]
  rw [if_pos hty]
  simp [Json.setItem, hdata]

/-- Loop body on a feeder pairing with a non-empty feeding list: the last
datapoint is popped and written under `lunch`. -/
theorem processPair_lunch (st : EntityMap) (acc : List (Int × ARef)) (pid did : Int)
    (dev : SurepyEntity) (dkvs : List (String × Json)) (mdps fdps ddps : List Json) (dp : Json)
    (hdev : alLookup st (.jint did) = some dev)
    (hdata : dev.data = .jobj dkvs)
    (hty : dev.etype = .FEEDER ∨ dev.etype = .FEEDER_LITE)
    (hlast : fdps.getLast? = some dp) :
    processPair st acc (mkPair pid did mdps fdps ddps) =
      .ok (setEntityData st (.jint did) (.jobj (alSet dkvs "lunch" dp)),
           alSet (alSet acc pid (ARef.dev (.jint did))) pid (ARef.val dp)) := by
  have hnotflap : ¬(dev.etype = .CAT_FLAP ∨ dev.etype = .PET_FLAP) := by
    rcases hty with h | h <;> simp [h]
  simp only [processPair, mkPair_getItem_pet, mkPair_getItem_dev, exceptBind_ok,
    jsonToInt, hdev, branchDatapoints_mkPair_feeding, hlast]
  rw [if_neg hnotflap, if_pos hty]
  simp [Json.setItem, hdata]

/-- Loop body on a felaqua pairing with a non-empty drinking list: the last
datapoint is popped and written under `drink`. -/
theorem processPair_drink (st : EntityMap) (acc : List (Int × ARef)) (pid did : Int)
    (dev : SurepyEntity) (dkvs : List (String × Json)) (mdps fdps ddps : List Json) (dp : Json)
    (hdev : alLookup st (.jint did) = some dev)
    (hdata : dev.data = .jobj dkvs)
    (hty : dev.etype = .FELAQUA)
    (hlast : ddps.getLast? = some dp) :
    processPair st acc (mkPair pid did mdps fdps ddps) =
      .ok (setEntityData st (.jint did) (.jobj (alSet dkvs "drink" dp)),
           alSet (alSet acc pid (ARef.dev (.jint did))) pid (ARef.val dp)) := by
  have hnotflap : ¬(dev.etype = .CAT_FLAP ∨ dev.etype = .PET_FLAP) := by
    simp [hty]
  have hnotfeeder : ¬(dev.etype = .FEEDER ∨ dev.etype = .FEEDER_LITE) := by
    simp [hty]
  simp only [processPair, mkPair_getItem_pet, mkPair_getItem_dev, exceptBind_ok,
    jsonToInt, hdev, branchDatapoints_mkPair_drinking, hlast]
  rw [if_neg hnotflap, if_neg hnotfeeder, if_pos hty]
  simp [Json.setItem, hdata]

/-- Loop body on a pairing whose datapoint lists are all empty: whatever the
device type, no branch fires, the entity map is untouched and the mapping
entry keeps the reference to the device's record. -/
theorem processPair_noop (st : EntityMap) (acc : List (Int × ARef)) (pid did : Int)
    (dev : SurepyEntity)
    (hdev : alLookup st (.jint did) = some dev) :
    processPair st acc (mkPair pid did [] [] []) =
      .ok (st, alSet acc pid (ARef.dev (.jint did))) := by
  simp only [processPair, mkPair_getItem_pet, mkPair_getItem_dev, exceptBind_ok,
    jsonToInt, hdev, branchDatapoints_mkPair_movement, branchDatapoints_mkPair_feeding,
    branchDatapoints_mkPair_drinking, List.getLast?]
  simp only [ite_self]

/-- Unfolding of `get_actions` once the report response is known to carry a
`data` list. -/
theorem getActions_data (sac : Sac) (st : EntityMap) (hh : Int) (p : Option Int)
    (b : Bool) (pairs : List Json)
    (hresp : sac.callResp (reportResource hh) = some (.jobj [("data", .jarr pairs)])) :
    getActions sac st hh p b =
      match processPairs st [] pairs with
      | .error e => .error e
      | .ok (e2, acc) => .ok (e2, resolveActions e2 acc) := by
  simp [getActions, hresp, Json.truthy, Json.hasKey, alContains, alLookup, Json.getItem]

/-- C5 (confirmed): for every pairing processed by the loop of `get_actions`
whose device is a Flap (CAT_FLAP or PET_FLAP) with a non-empty movement
datapoint list, the last element of that list is selected (`.pop()`) and
written into the device's wrapped record under key `move`; analogously the
last feeding datapoint under `lunch` for FEEDER/FEEDER_LITE and the last
drinking datapoint under `drink` for FELAQUA. -/
theorem getActions_selects_last_datapoint (st : EntityMap) (acc : List (Int × ARef))
    (pid did : Int) (dev : SurepyEntity) (dkvs : List (String × Json))
    (mdps fdps ddps : List Json) (dp : Json)
    (hdev : alLookup st (.jint did) = some dev)
    (hdata : dev.data = .jobj dkvs) :
    ((dev.etype = .CAT_FLAP ∨ dev.etype = .PET_FLAP) → mdps.getLast? = some dp →
       processPair st acc (mkPair pid did mdps fdps ddps) =
         .ok (setEntityData st (.jint did) (.jobj (alSet dkvs "move" dp)),
              alSet (alSet acc pid (ARef.dev (.jint did))) pid (ARef.val dp))) ∧
    ((dev.etype = .FEEDER ∨ dev.etype = .FEEDER_LITE) → fdps.getLast? = some dp →
       processPair st acc (mkPair pid did mdps fdps ddps) =
         .ok (setEntityData st (.jint did) (.jobj (alSet dkvs "lunch" dp)),
              alSet (alSet acc pid (ARef.dev (.jint did))) pid (ARef.val dp))) ∧
    (dev.etype = .FELAQUA → ddps.getLast? = some dp →
       processPair st acc (mkPair pid did mdps fdps ddps) =
         .ok (setEntityData st (.jint did) (.jobj (alSet dkvs "drink" dp)),
              alSet (alSet acc pid (ARef.dev (.jint did))) pid (ARef.val dp))) :=
  ⟨fun hty hlast => processPair_move st acc pid did dev dkvs mdps fdps ddps dp hdev hdata hty hlast,
   fun hty hlast => processPair_lunch st acc pid did dev dkvs mdps fdps ddps dp hdev hdata hty hlast,
   fun hty hlast => processPair_drink st acc pid did dev dkvs mdps fdps ddps dp hdev hdata hty hlast⟩

/-- C5, witness: on the flap with movement datapoints `[{"t":1},{"t":2}]`,
the loop body writes `{"t":2}` (the last element) under `move`. -/
theorem getActions_selects_last_datapoint_witness :
    alLookup c1st (.jint 10) = some ⟨.CAT_FLAP, c1data⟩ ∧
    processPair c1st [] (mkPair 20 10 [.jobj [("t", .jint 1)], .jobj [("t", .jint 2)]] [] []) =
      .ok (setEntityData c1st (.jint 10)
             (.jobj (alSet [("id", .jint 10), ("product_id", .jint 1), ("household_id", .jint 5)]
               "move" (.jobj [("t", .jint 2)]))),
           alSet (alSet [] 20 (ARef.dev (.jint 10))) 20 (ARef.val (.jobj [("t", .jint 2)]))) :=
  ⟨rfl,
   (getActions_selects_last_datapoint c1st [] 20 10 ⟨.CAT_FLAP, c1data⟩
      [("id", .jint 10), ("product_id", .jint 1), ("household_id", .jint 5)]
      [.jobj [("t", .jint 1)], .jobj [("t", .jint 2)]] [] [] (.jobj [("t", .jint 2)])
      rfl rfl).1 (Or.inl rfl) rfl⟩

/-- C1 (corrected, amended claim): for a pairing whose device id is present
in the Entity Map, the value `get_actions` returns under the pairing's pet id
is the popped last datapoint in the movement, feeding and drinking branches
(while the same datapoint is written into the device's wrapped record under
`move`/`lunch`/`drink`), and it is the device's full wrapped record only in
the no-mutation case. -/
theorem getActions_value_by_branch (sac : Sac) (st : EntityMap) (hh : Int)
    (p : Option Int) (b : Bool) (pid did : Int) (dev : SurepyEntity)
    (dkvs : List (String × Json)) (mdps fdps ddps : List Json)
    (hresp : sac.callResp (reportResource hh) =
      some (.jobj [("data", .jarr [mkPair pid did mdps fdps ddps])]))
    (hdev : alLookup st (.jint did) = some dev)
    (hdata : dev.data = .jobj dkvs) :
    (∀ dp, (dev.etype = .CAT_FLAP ∨ dev.etype = .PET_FLAP) → mdps.getLast? = some dp →
       getActions sac st hh p b =
         .ok (setEntityData st (.jint did) (.jobj (alSet dkvs "move" dp)), [(pid, dp)])) ∧
    (∀ dp, (dev.etype = .FEEDER ∨ dev.etype = .FEEDER_LITE) → fdps.getLast? = some dp →
       getActions sac st hh p b =
         .ok (setEntityData st (.jint did) (.jobj (alSet dkvs "lunch" dp)), [(pid, dp)])) ∧
    (∀ dp, dev.etype = .FELAQUA → ddps.getLast? = some dp →
       getActions sac st hh p b =
         .ok (setEntityData st (.jint did) (.jobj (alSet dkvs "drink" dp)), [(pid, dp)])) ∧
    (mdps = [] → fdps = [] → ddps = [] →
       getActions sac st hh p b = .ok (st, [(pid, .jobj dkvs)])) := by
  refine ⟨fun dp hty hlast => ?_, fun dp hty hlast => ?_, fun dp hty hlast => ?_,
    fun hm hf hd => ?_⟩
  · rw [getActions_data sac st hh p b _ hresp]
    simp [processPairs, processPair_move st [] pid did dev dkvs mdps fdps ddps dp hdev hdata hty hlast,
      resolveActions, resolveARef, alSet]
  · rw [getActions_data sac st hh p b _ hresp]
    simp [processPairs, processPair_lunch st [] pid did dev dkvs mdps fdps ddps dp hdev hdata hty hlast,
      resolveActions, resolveARef, alSet]
  · rw [getActions_data sac st hh p b _ hresp]
    simp [processPairs, processPair_drink st [] pid did dev dkvs mdps fdps ddps dp hdev hdata hty hlast,
      resolveActions, resolveARef, alSet]
  · subst hm; subst hf; subst hd
    rw [getActions_data sac st hh p b _ hresp]
    simp [processPairs, processPair_noop st [] pid did dev hdev,
      resolveActions, resolveARef, alSet, hdev, hdata]

/-- C1, witness: on the flap scenario the returned value for pet 20 is the
datapoint `{"t":2}` while the record gains `move`; on the empty-datapoint
scenario the returned value is the full wrapped record, unchanged. -/
theorem getActions_value_by_branch_witness :
    getActions c1sac c1st 5 none true =
      .ok (setEntityData c1st (.jint 10)
             (.jobj (alSet [("id", .jint 10), ("product_id", .jint 1), ("household_id", .jint 5)]
               "move" (.jobj [("t", .jint 2)]))),
           [(20, .jobj [("t", .jint 2)])]) ∧
    getActions c1sacB c1st 5 none true =
      .ok (c1st, [(20, .jobj [("id", .jint 10), ("product_id", .jint 1), ("household_id", .jint 5)])]) :=
  ⟨(getActions_value_by_branch c1sac c1st 5 none true 20 10 ⟨.CAT_FLAP, c1data⟩
      [("id", .jint 10), ("product_id", .jint 1), ("household_id", .jint 5)]
      [.jobj [("t", .jint 1)], .jobj [("t", .jint 2)]] [] [] rfl rfl rfl).1
      (.jobj [("t", .jint 2)]) (Or.inl rfl) rfl,
   (getActions_value_by_branch c1sacB c1st 5 none true 20 10 ⟨.CAT_FLAP, c1data⟩
      [("id", .jint 10), ("product_id", .jint 1), ("household_id", .jint 5)]
      [] [] [] rfl rfl rfl).2.2.2 rfl rfl rfl⟩

/-- Splitting the report loop over a concatenation of pairings. -/
theorem processPairs_append (l1 l2 : List Json) (st : EntityMap) (acc : List (Int × ARef)) :
    processPairs st acc (l1 ++ l2) =
      (processPairs st acc l1) >>= fun r => processPairs r.1 r.2 l2 := by
  induction l1 generalizing st acc with
  | nil => simp [processPairs]
  | cons p rest ih =>
      simp only [List.cons_append, processPairs]
      cases h : processPair st acc p with
      | error e => simp [h]
      | ok r => obtain ⟨e2, a2⟩ := r; simp [h, ih]

/-- C8 (confirmed): when a household-report pairing references a `device_id`
that is absent from the Entity Map, `get_actions` raises the lookup error
(`KeyError(device_id)` from `self._entities[device_id]`) instead of skipping
the pairing or returning a partial mapping. -/
theorem getActions_absent_device_raises (sac : Sac) (st : EntityMap) (hh : Int)
    (p : Option Int) (b : Bool) (pairs1 pairs2 : List Json)
    (pkvs : List (String × Json)) (pid did : Int) (st1 : EntityMap) (acc1 : List (Int × ARef))
    (hresp : sac.callResp (reportResource hh) =
      some (.jobj [("data", .jarr (pairs1 ++ Json.jobj pkvs :: pairs2))]))
    (hpre : processPairs st [] pairs1 = .ok (st1, acc1))
    (hpet : alLookup pkvs "pet_id" = some (.jint pid))
    (hdid : alLookup pkvs "device_id" = some (.jint did))
    (habsent : alLookup st1 (.jint did) = none) :
    getActions sac st hh p b = .error (.keyError (.jint did)) := by
  rw [getActions_data sac st hh p b _ hresp, processPairs_append, hpre]
  have hpp : processPair st1 acc1 (Json.jobj pkvs) = .error (.keyError (.jint did)) := by
    simp [processPair, Json.getItem, hpet, hdid, jsonToInt, habsent]
  simp [processPairs, hpp]

/-- C8, witness: with an empty Entity Map and a report pairing device id 99,
`get_actions` raises `KeyError(99)`. -/
theorem getActions_absent_device_raises_witness :
    alLookup ([] : EntityMap) (.jint 99) = none ∧
    getActions c8sac [] 2 none true = .error (.keyError (.jint 99)) :=
  ⟨rfl, getActions_absent_device_raises c8sac [] 2 none true [] []
    [("pet_id", .jint 1), ("device_id", .jint 99)] 1 99 [] [] rfl rfl rfl rfl rfl⟩

/-- C6 (confirmed): for every numeric product code mapped to one of the seven
valid tags, resolving a sync payload containing exactly one record of that
code produces exactly one entity in the Entity Map, keyed by the record's id,
whose stored tag — and hence variant class (Flap for CAT_FLAP/PET_FLAP,
Feeder for FEEDER/FEEDER_LITE, Felaqua, Hub, Pet) — matches the code. -/
theorem getEntities_single_record (tagOf : Int → EntityType) (sac : Sac) (i code hh : Int)
    (hresp : sac.callResp MESTART_RESOURCE =
      some (.jobj [("data", .jobj [("devices", .jarr [mkRecord i code hh]),
                                   ("pets", .jarr [])])]))
    (hrep : sac.callResp (reportResource hh) = none)
    (hvalid : tagOf code ≠ .unknown) :
    getEntities tagOf sac [] true =
      .ok ([(.jint i, ⟨tagOf code, mkRecord i code hh⟩)],
           [(.jint i, ⟨tagOf code, mkRecord i code hh⟩)]) := by
  have hfetch : fetchRawData sac true =
      .ok (.jobj [("devices", .jarr [mkRecord i code hh]), ("pets", .jarr [])]) := by
    simp [fetchRawData, hresp, Json.truthy, Json.dictGet, alLookup]
  have hact : ∀ (stx : EntityMap), getActions sac stx hh none true = .ok (stx, []) := by
    intro stx
    simp [getActions, hrep, Json.hasKey, alContains, alLookup]
  have hrec : processRecord tagOf [] [] [] (mkRecord i code hh) =
      .ok ([(.jint i, ⟨tagOf code, mkRecord i code hh⟩)],
           [(.jint i, ⟨tagOf code, mkRecord i code hh⟩)], [hh]) := by
    cases htag : tagOf code
    case unknown => exact absurd htag hvalid
    all_goals
      simp [processRecord, mkRecord, Json.dictGet, Json.getItem, alLookup, jsonToInt, htag,
        SurepyEntity.householdId, alSet]
  simp [getEntities, hfetch, Json.truthy, Json.dictGet, alLookup, processRecords, hrec,
    enrichHouseholds, hact]

/-- C6, witness: under `exampleCoding`, code 5 is FELAQUA and the singleton
payload resolves to one FELAQUA entity keyed by id 10. -/
theorem getEntities_single_record_witness :
    exampleCoding 5 ≠ EntityType.unknown ∧
    getEntities exampleCoding c6sac [] true =
      .ok ([(.jint 10, ⟨exampleCoding 5, mkRecord 10 5 3⟩)],
           [(.jint 10, ⟨exampleCoding 5, mkRecord 10 5 3⟩)]) :=
  ⟨by decide, getEntities_single_record exampleCoding c6sac 10 5 3 rfl rfl (by decide)⟩

/-- Unfolding of the bind operation of the `Except` monad to its underlying
match, used to split embedded control flow. -/
theorem exceptBind_eq {α β : Type} (x : Except PyError α) (f : α → Except PyError β) :
    x >>= f = Except.bind x f := rfl

/-- C3 (corrected, amended claim): when the bulk-sync fetch succeeds (or the
cached copy is used) but the data section is empty/falsy, `get_entities`
returns a fresh empty mapping — not the process-wide Entity Map, which it
leaves untouched; when the fetch returns no response at all and nothing is
cached, `get_entities` raises (the unbound `raw_data` variable) instead of
failing softly. -/
theorem getEntities_soft_failure_behavior :
    (∀ (tagOf : Int → EntityType) (sac : Sac) (st : EntityMap) (refresh : Bool) (d : Json),
        fetchRawData sac refresh = .ok d → d.truthy = false →
        getEntities tagOf sac st refresh = .ok (st, [])) ∧
    (∀ (tagOf : Int → EntityType) (sac : Sac) (st : EntityMap) (refresh : Bool),
        (alContains sac.resources MESTART_RESOURCE = false ∨ refresh = true) →
        sac.callResp MESTART_RESOURCE = none →
        getEntities tagOf sac st refresh = .error .unboundLocal) := by
  constructor
  · intro tagOf sac st refresh d hfetch htruthy
    simp [getEntities, hfetch, htruthy]
  · intro tagOf sac st refresh hguard hnone
    have hfetch : fetchRawData sac refresh = .error .unboundLocal := by
      rw [fetchRawData, if_pos hguard, hnone]
    simp [getEntities, hfetch]

/-- C3, witness: the cached-empty-data scenario returns the fresh empty map
leaving the prior entity map untouched, and the nothing-cached null-call
scenario raises the unbound-variable error. -/
theorem getEntities_soft_failure_behavior_witness :
    fetchRawData c3sac false = .ok (.jobj []) ∧
    getEntities exampleCoding c3sac c3st false = .ok (c3st, []) ∧
    getEntities exampleCoding c3sacB c3st false = .error .unboundLocal :=
  ⟨rfl,
   getEntities_soft_failure_behavior.1 exampleCoding c3sac c3st false (.jobj []) rfl rfl,
   getEntities_soft_failure_behavior.2 exampleCoding c3sacB c3st false (Or.inl rfl) rfl⟩

/-- Shape of the entity-map component after one loop body step of
`get_actions`: either untouched or a single in-place record mutation. -/
theorem processPair_state_shape (entities st' : EntityMap) (acc acc' : List (Int × ARef))
    (p : Json) (h : processPair entities acc p = .ok (st', acc')) :
    st' = entities ∨ ∃ dk d, st' = setEntityData entities dk d := by
  simp only [processPair, exceptBind_eq, Except.bind] at h
  repeat' split at h
  all_goals try (injection h; done)
  all_goals injection h with h
  all_goals injection h with h1 h2
  all_goals first
    | exact Or.inl h1.symm
    | exact Or.inr ⟨_, _, h1.symm⟩

/-- A dict write never removes a key: any key readable before an `alSet` is
still readable afterwards. -/
theorem alLookup_alSet_isSome {κ α : Type} [DecidableEq κ] (l : List (κ × α)) (k k' : κ) (v : α)
    (h : (alLookup l k').isSome = true) : (alLookup (alSet l k v) k').isSome = true := by
  rw [alLookup_alSet]
  by_cases hk : k = k' <;> simp [hk, h]

/-- Unfolding of lookup over a cons cell. -/
theorem alLookup_cons {κ α : Type} [DecidableEq κ] (k0 : κ) (v0 : α)
    (rest : List (κ × α)) (k : κ) :
    alLookup ((k0, v0) :: rest) k = if k0 = k then some v0 else alLookup rest k := rfl

/-- Unfolding of an in-place record mutation over a cons cell. -/
theorem setEntityData_cons (k0 : Json) (e0 : SurepyEntity) (rest : EntityMap) (dkey d : Json) :
    setEntityData ((k0, e0) :: rest) dkey d =
      (if k0 = dkey then (k0, ⟨e0.etype, d⟩) else (k0, e0)) :: setEntityData rest dkey d := by
  rfl

/-- An in-place record mutation changes no keys of the entity map. -/
theorem alLookup_setEntityData_isSome (st : EntityMap) (dkey d k' : Json) :
    (alLookup (setEntityData st dkey d) k').isSome = (alLookup st k').isSome := by
  induction st with
  | nil => rfl
  | cons kv rest ih =>
      obtain ⟨k0, e0⟩ := kv
      rw [setEntityData_cons]
      by_cases h0 : k0 = dkey
      · rw [if_pos h0, alLookup_cons, alLookup_cons]
        by_cases h1 : k0 = k'
        · simp [h1]
        · simp [h1, ih]
      · rw [if_neg h0, alLookup_cons, alLookup_cons]
        by_cases h1 : k0 = k'
        · simp [h1]
        · simp [h1, ih]

/-- One loop body step of `get_actions` preserves every key of the entity
map. -/
theorem processPair_lookup_isSome (entities st' : EntityMap) (acc acc' : List (Int × ARef))
    (p : Json) (h : processPair entities acc p = .ok (st', acc')) (k : Json)
    (hk : (alLookup entities k).isSome = true) : (alLookup st' k).isSome = true := by
  rcases processPair_state_shape entities st' acc acc' p h with h1 | ⟨dk, d, h1⟩
  · rw [h1]; exact hk
  · rw [h1, alLookup_setEntityData_isSome]; exact hk

/-- The whole report loop of `get_actions` preserves every key of the entity
map. -/
theorem processPairs_lookup_isSome (ps : List Json) (entities st' : EntityMap)
    (acc acc' : List (Int × ARef))
    (h : processPairs entities acc ps = .ok (st', acc')) (k : Json)
    (hk : (alLookup entities k).isSome = true) : (alLookup st' k).isSome = true := by
  induction ps generalizing entities acc with
  | nil =>
      simp only [processPairs] at h
      injection h with h
      injection h with h1 h2
      rw [← h1]; exact hk
  | cons p rest ih =>
      simp only [processPairs] at h
      cases hp : processPair entities acc p with
      | error e => rw [hp] at h; exact absurd h (by simp)
      | ok r =>
          obtain ⟨e2, a2⟩ := r
          rw [hp] at h
          rw [exceptBind_ok] at h
          exact ih e2 a2 h (processPair_lookup_isSome entities e2 acc a2 p hp k hk)

/-- A successful `get_actions` call preserves every key of the entity map:
enrichment only mutates records in place. -/
theorem getActions_lookup_isSome (sac : Sac) (entities st' : EntityMap) (hh : Int)
    (p : Option Int) (b : Bool) (ret : List (Int × Json))
    (h : getActions sac entities hh p b = .ok (st', ret)) (k : Json)
    (hk : (alLookup entities k).isSome = true) : (alLookup st' k).isSome = true := by
  simp only [getActions] at h
  cases hresp : sac.callResp (reportResource hh) with
  | none =>
      simp [hresp, Json.hasKey, alContains, alLookup] at h
      rw [← h.1]; exact hk
  | some j =>
      simp only [hresp] at h
      by_cases ht : j.truthy
      · simp only [ht, if_true] at h
        by_cases hkd : j.hasKey "data" = false
        · rw [if_pos hkd] at h
          injection h with h
          injection h with h1 h2
          rw [← h1]; exact hk
        · rw [if_neg hkd] at h
          cases hgi : j.getItem "data" with
          | error e => simp only [hgi] at h; exact absurd h (by simp)
          | ok dj =>
              simp only [hgi] at h
              cases dj with
              | jarr pairs =>
                  cases hpp : processPairs entities [] pairs with
                  | error e => simp only [hpp] at h; exact absurd h (by simp)
                  | ok r =>
                      obtain ⟨e2, acc⟩ := r
                      simp only [hpp] at h
                      injection h with h
                      injection h with h1 h2
                      rw [← h1]
                      exact processPairs_lookup_isSome pairs entities e2 [] acc hpp k hk
              | null => exact absurd h (by simp)
              | jbool bb => exact absurd h (by simp)
              | jint nn => exact absurd h (by simp)
              | jstr ss => exact absurd h (by simp)
              | jobj kvs => exact absurd h (by simp)
      · simp only [Bool.not_eq_true] at ht
        simp [ht, Json.hasKey, alContains, alLookup] at h
        rw [← h.1]; exact hk

/-- Shape of the process-wide map after one record-classification step of
`get_entities`: always a single insert/overwrite. -/
theorem processRecord_state_shape (tagOf : Int → EntityType)
    (selfEnts localEnts s' l' : EntityMap) (hhIds h' : List Int) (entity : Json)
    (h : processRecord tagOf selfEnts localEnts hhIds entity = .ok (s', l', h')) :
    ∃ ek e, s' = alSet selfEnts ek e := by
  simp only [processRecord, exceptBind_eq, Except.bind] at h
  repeat' split at h
  all_goals try (injection h; done)
  all_goals injection h with h
  all_goals injection h with h1 h2
  all_goals exact ⟨_, _, h1.symm⟩

/-- The record-classification loop of `get_entities` only adds or overwrites
entries of the process-wide map, never deletes. -/
theorem processRecords_lookup_isSome (rs : List Json) (tagOf : Int → EntityType)
    (selfEnts localEnts s' l' : EntityMap) (hhIds h' : List Int)
    (h : processRecords tagOf selfEnts localEnts hhIds rs = .ok (s', l', h')) (k : Json)
    (hk : (alLookup selfEnts k).isSome = true) : (alLookup s' k).isSome = true := by
  induction rs generalizing selfEnts localEnts hhIds with
  | nil =>
      simp only [processRecords] at h
      injection h with h
      injection h with h1 h2
      rw [← h1]; exact hk
  | cons r rest ih =>
      simp only [processRecords] at h
      cases hr : processRecord tagOf selfEnts localEnts hhIds r with
      | error e => rw [hr] at h; exact absurd h (by simp)
      | ok t =>
          obtain ⟨s2, l2, h2⟩ := t
          rw [hr] at h
          rw [exceptBind_ok] at h
          obtain ⟨ek, e, hs2⟩ :=
            processRecord_state_shape tagOf selfEnts localEnts s2 l2 hhIds h2 r hr
          refine ih s2 l2 h2 h ?_
          rw [hs2]
          exact alLookup_alSet_isSome selfEnts ek k e hk

/-- The per-household enrichment fan-out preserves every key of the entity
map. -/
theorem enrichHouseholds_lookup_isSome (hs : List Int) (sac : Sac) (entities st' : EntityMap)
    (h : enrichHouseholds sac entities hs = .ok st') (k : Json)
    (hk : (alLookup entities k).isSome = true) : (alLookup st' k).isSome = true := by
  induction hs generalizing entities with
  | nil =>
      simp only [enrichHouseholds] at h
      injection h with h
      rw [← h]; exact hk
  | cons hh rest ih =>
      simp only [enrichHouseholds] at h
      cases ha : getActions sac entities hh none true with
      | error e => simp only [ha] at h; exact absurd h (by simp)
      | ok r =>
          obtain ⟨e2, ret⟩ := r
          simp only [ha] at h
          exact ih e2 h (getActions_lookup_isSome sac entities e2 hh none true ret ha k hk)

/-- C7 (corrected, amended claim): the process-wide Entity Map never shrinks
— on every successful `get_entities` call, every id present before the call
is still present in the final process-wide map (classification only
adds/overwrites and enrichment only mutates records in place) — and the
returned map is either that full process-wide map (success path, including
entities from prior resolutions absent from the payload) or a fresh empty
map (soft-failure path). -/
theorem getEntities_monotone (tagOf : Int → EntityType) (sac : Sac) (st : EntityMap)
    (refresh : Bool) (final ret : EntityMap)
    (h : getEntities tagOf sac st refresh = .ok (final, ret)) :
    (∀ k, (alLookup st k).isSome = true → (alLookup final k).isSome = true) ∧
    (ret = final ∨ ret = []) := by
  simp only [getEntities] at h
  cases hf : fetchRawData sac refresh with
  | error e => simp only [hf] at h; exact absurd h (by simp)
  | ok rawData =>
    simp only [hf] at h
    by_cases ht : rawData.truthy = false
    · rw [if_pos ht] at h
      injection h with h
      injection h with h1 h2
      subst h1
      exact ⟨fun k hk => hk, Or.inr h2.symm⟩
    · rw [if_neg ht] at h
      cases hdv : rawData.dictGet "devices" (.jarr []) with
      | error e => simp only [hdv] at h; exact absurd h (by simp)
      | ok dvj =>
        simp only [hdv] at h
        cases hpt : rawData.dictGet "pets" (.jarr []) with
        | error e => simp only [hpt] at h; exact absurd h (by simp)
        | ok ptj =>
          simp only [hpt] at h
          cases dvj <;> cases ptj <;> try (injection h; done)
          rename_i ds ps
          cases hpr : processRecords tagOf st [] [] (ds ++ ps) with
          | error e => simp only [hpr] at h; exact absurd h (by simp)
          | ok t =>
            obtain ⟨s2, l2, hhIds⟩ := t
            simp only [hpr] at h
            cases hen : enrichHouseholds sac s2 hhIds with
            | error e => simp only [hen] at h; exact absurd h (by simp)
            | ok final2 =>
              simp only [hen] at h
              injection h with h
              injection h with h1 h2
              refine ⟨fun k hk => ?_, Or.inl (h2.symm.trans h1)⟩
              rw [← h1]
              exact enrichHouseholds_lookup_isSome hhIds sac s2 final2 hen k
                (processRecords_lookup_isSome (ds ++ ps) tagOf st [] s2 l2 [] hhIds hpr k hk)

/-- C7, witness: on the soft-failure scenario the call succeeds, id 9 was
present before and is present in the final process-wide map, and the
returned map is the empty one. -/
theorem getEntities_monotone_witness :
    getEntities exampleCoding c7sac c7st true = .ok (c7st, []) ∧
    (alLookup c7st (.jint 9)).isSome = true ∧
    (([] : EntityMap) = c7st ∨ ([] : EntityMap) = []) :=
  ⟨rfl,
   (getEntities_monotone exampleCoding c7sac c7st true c7st [] rfl).1 (.jint 9) rfl,
   (getEntities_monotone exampleCoding c7sac c7st true c7st [] rfl).2⟩
